import Mathlib

/-
Verification of the coroutine message bus implemented in corobus.cpp.

The embedding below is a shallow model of the C++ source.  A channel is a
bounded FIFO of unsigned 32-bit messages (modelled as Nat, since the code
only copies the values) together with two waiter queues; the bus is the
pair of parallel arrays (channels, channel_gens) from struct coro_bus; the
process-wide variable global_error is carried in the state record St.
Waiter queues hold opaque coroutine tokens (Nat).  Waking a coroutine
(coro_wakeup) only unlinks its entry from the queue; the scheduling side
effect is external to the bus state, so wakeup_queue_wakeup_first is the
tail of the queue and wakeup_queue_wakeup_n with count k drops up to k
entries from the head, exactly as the rlist loop in the source does.

Machine integers: message values and queue tokens are never computed with,
so plain Nat is used for them.  The size_t subtraction in the vector send
path and the cast of a size_t to unsigned, where wrap-around is
observable, are modelled with explicit reductions modulo 2 to the 64 and
2 to the 32; the int cast of the returned count is modelled by
int_of_unsigned.  Generation counters are unsigned long long in the
source; the 2 to the 64 wrap of a counter that is bumped once per close is
not modelled.

The blocking operations suspend inside wakeup_queue_suspend_this and other
coroutines run while the task sleeps.  They are modelled as fuel-bounded
interpreters: each suspension consumes the next element of a list env of
bus states, the arbitrary bus contents observed at resumption.  Running
out of fuel or env yields Option.none, meaning the call has not returned
within the modelled trace.
-/

namespace Corobus

/-- Error codes of the bus, mirroring enum coro_bus_error_code:
CORO_BUS_ERR_NONE, CORO_BUS_ERR_NO_CHANNEL, CORO_BUS_ERR_WOULD_BLOCK. -/
inductive ErrCode where
  | NONE
  | NO_CHANNEL
  | WOULD_BLOCK
  deriving DecidableEq

/-- Modulus of the 32-bit unsigned type used for message counts. -/
def U32 : Nat := 4294967296

/-- Modulus of the 64-bit size_t and unsigned long long types. -/
def U64 : Nat := 18446744073709551616

/-- Value of a C cast (int)x applied to an unsigned 32-bit quantity x,
two-complement wrap into the signed range. -/
def int_of_unsigned (n : Nat) : Int :=
  (((n + 2147483648) % U32 : Nat) : Int) - 2147483648

/-- One channel of the bus: struct coro_bus_channel.  Field data is the
std::deque of pending messages with the head at the front; sendQueue and
recvQueue are the wakeup queues of suspended coroutine tokens in FIFO
order. -/
structure Channel where
  sizeLimit : Nat
  sendQueue : List Nat
  recvQueue : List Nat
  data : List Nat
  deriving DecidableEq

/-- The bus: struct coro_bus.  The two lists are the parallel arrays
channels and channel_gens; channel_count is the shared length. -/
structure Bus where
  channels : List (Option Channel)
  channelGens : List Nat
  deriving DecidableEq

/-- Bus state together with the process-wide last-error variable
global_error. -/
structure St where
  bus : Bus
  err : ErrCode
  deriving DecidableEq

/-- Model of wakeup_queue_wakeup_first: pop the head entry, if any, and
wake that coroutine (the wake itself is external to the bus state). -/
def wakeup_queue_wakeup_first (q : List Nat) : List Nat := q.tail

/-- Model of wakeup_queue_wakeup_n: pop and wake up to count head
entries. -/
def wakeup_queue_wakeup_n (q : List Nat) (count : Nat) : List Nat := q.drop count

/-- Model of the enqueue half of wakeup_queue_suspend_this: link the
calling coroutine at the tail of the queue before suspending. -/
def wakeup_queue_suspend_this (q : List Nat) (task : Nat) : List Nat := q ++ [task]

/-- Model of channel_get: bounds check the handle, then read the slot; a
tombstoned slot holds Option.none just as the C array holds NULL. -/
def channel_get (bus : Bus) (channel : Int) : Option Channel :=
  if channel < 0 ∨ (bus.channels.length : Int) ≤ channel then Option.none
  else bus.channels.getD channel.toNat Option.none

/-- Model of channel_gen_get: read the generation of a slot, 0 when the
handle is out of range. -/
def channel_gen_get (bus : Bus) (channel : Int) : Nat :=
  if channel < 0 ∨ (bus.channels.length : Int) ≤ channel then 0
  else bus.channelGens.getD channel.toNat 0

/-- Model of channel_is_same: the slot is still live and its generation
still equals the snapshot. -/
def channel_is_same (bus : Bus) (channel : Int) (gen : Nat) : Bool :=
  match channel_get bus channel with
  | Option.none => false
  | Option.some _ => channel_gen_get bus channel == gen

/-- Model of channel_init on a freshly allocated channel: empty queues and
an empty message deque. -/
def channel_init (size_limit : Nat) : Channel :=
  { sizeLimit := size_limit, sendQueue := [], recvQueue := [], data := [] }

/-- Write one slot of the channel array in place. -/
def bus_set_channel (bus : Bus) (channel : Int) (c : Option Channel) : Bus :=
  { bus with channels := bus.channels.set channel.toNat c }

/-- Model of coro_bus_new: empty arrays, last error NONE. -/
def coro_bus_new : St :=
  { bus := { channels := [], channelGens := [] }, err := ErrCode.NONE }

/-- Model of coro_bus_channel_open: reuse the lowest tombstone slot, else
grow both arrays by one with the new generation entry set to 1.  Returns
the handle and the new state. -/
def coro_bus_channel_open (st : St) (size_limit : Nat) : Int × St :=
  match st.bus.channels.findIdx? Option.isNone with
  | Option.some i =>
    ((i : Int),
     { bus := { st.bus with channels := st.bus.channels.set i (Option.some (channel_init size_limit)) },
       err := ErrCode.NONE })
  | Option.none =>
    ((st.bus.channels.length : Int),
     { bus := { channels := st.bus.channels ++ [Option.some (channel_init size_limit)],
                channelGens := st.bus.channelGens ++ [1] },
       err := ErrCode.NONE })

/-- Model of coro_bus_channel_close: on a live slot, tombstone it, bump
its generation, wake (and thereby drain) both waiter queues and free the
channel; on a dead or out-of-range handle do nothing.  The last-error
variable is not touched by the source function. -/
def coro_bus_channel_close (st : St) (channel : Int) : St :=
  match channel_get st.bus channel with
  | Option.none => st
  | Option.some _ =>
    { bus := { channels := st.bus.channels.set channel.toNat Option.none,
               channelGens := st.bus.channelGens.set channel.toNat (channel_gen_get st.bus channel + 1) },
      err := st.err }

/-- Model of coro_bus_try_send: resolve the channel, fail WOULD_BLOCK when
data.size() is at least size_limit, else push the value at the tail, wake
the first receive waiter and succeed with NONE. -/
def coro_bus_try_send (st : St) (channel : Int) (data : Nat) : Int × St :=
  match channel_get st.bus channel with
  | Option.none => (-1, { st with err := ErrCode.NO_CHANNEL })
  | Option.some ch =>
    if ch.sizeLimit ≤ ch.data.length then
      (-1, { st with err := ErrCode.WOULD_BLOCK })
    else
      (0, { bus := bus_set_channel st.bus channel (Option.some
              { ch with data := ch.data ++ [data],
                        recvQueue := wakeup_queue_wakeup_first ch.recvQueue }),
            err := ErrCode.NONE })

/-- Model of coro_bus_try_recv: resolve the channel, fail WOULD_BLOCK on
an empty deque, else pop the head into the out parameter (the middle
component), wake the first send waiter and succeed with NONE. -/
def coro_bus_try_recv (st : St) (channel : Int) : Int × Option Nat × St :=
  match channel_get st.bus channel with
  | Option.none => (-1, Option.none, { st with err := ErrCode.NO_CHANNEL })
  | Option.some ch =>
    match ch.data with
    | [] => (-1, Option.none, { st with err := ErrCode.WOULD_BLOCK })
    | v :: rest =>
      (0, Option.some v,
       { bus := bus_set_channel st.bus channel (Option.some
           { ch with data := rest,
                     sendQueue := wakeup_queue_wakeup_first ch.sendQueue }),
         err := ErrCode.NONE })

/-- Append the broadcast value at the tail of one channel and wake its
first receive waiter, as the success loop of coro_bus_try_broadcast does
per live channel. -/
def broadcast_push (data : Nat) (ch : Channel) : Channel :=
  { ch with data := ch.data ++ [data],
            recvQueue := wakeup_queue_wakeup_first ch.recvQueue }

/-- Model of coro_bus_try_broadcast: scanning the array, a live full
channel fails the call with WOULD_BLOCK; a bus with no live channel fails
with NO_CHANNEL; otherwise every live channel receives the value and wakes
one receive waiter. -/
def coro_bus_try_broadcast (st : St) (data : Nat) : Int × St :=
  if st.bus.channels.any (fun o =>
       match o with
       | Option.none => false
       | Option.some ch => decide (ch.sizeLimit ≤ ch.data.length)) then
    (-1, { st with err := ErrCode.WOULD_BLOCK })
  else if st.bus.channels.all Option.isNone then
    (-1, { st with err := ErrCode.NO_CHANNEL })
  else
    (0, { bus := { st.bus with channels := st.bus.channels.map (Option.map (broadcast_push data)) },
          err := ErrCode.NONE })

/-- Model of coro_bus_try_send_v.  The free space is the size_t difference
size_limit - data.size() reduced modulo 2 to the 64, and the count
actually sent is min of count and the cast (unsigned)free_space, that is
free_space modulo 2 to the 32.  The first to_send input values are pushed
in order and up to to_send receive waiters are woken; the int return value
carries the two-complement cast of to_send. -/
def coro_bus_try_send_v (st : St) (channel : Int) (data : List Nat) (count : Nat) : Int × St :=
  if count = 0 then
    (0, { st with err := ErrCode.NONE })
  else
    match channel_get st.bus channel with
    | Option.none => (-1, { st with err := ErrCode.NO_CHANNEL })
    | Option.some ch =>
      let free_space := (U64 + ch.sizeLimit - ch.data.length) % U64
      if free_space = 0 then
        (-1, { st with err := ErrCode.WOULD_BLOCK })
      else
        let to_send := min count (free_space % U32)
        (int_of_unsigned to_send,
         { bus := bus_set_channel st.bus channel (Option.some
             { ch with data := ch.data ++ data.take to_send,
                       recvQueue := wakeup_queue_wakeup_n ch.recvQueue to_send }),
           err := ErrCode.NONE })

/-- Model of coro_bus_try_recv_v: pop min of capacity and the cast
(unsigned)data.size() messages from the head into the out buffer (middle
component) and wake that many send waiters. -/
def coro_bus_try_recv_v (st : St) (channel : Int) (capacity : Nat) : Int × List Nat × St :=
  if capacity = 0 then
    (0, [], { st with err := ErrCode.NONE })
  else
    match channel_get st.bus channel with
    | Option.none => (-1, [], { st with err := ErrCode.NO_CHANNEL })
    | Option.some ch =>
      if ch.data = [] then
        (-1, [], { st with err := ErrCode.WOULD_BLOCK })
      else
        let to_recv := min capacity (ch.data.length % U32)
        (int_of_unsigned to_recv, ch.data.take to_recv,
         { bus := bus_set_channel st.bus channel (Option.some
             { ch with data := ch.data.drop to_recv,
                       sendQueue := wakeup_queue_wakeup_n ch.sendQueue to_recv }),
           err := ErrCode.NONE })

/-- Model of the blocking coro_bus_send: loop over coro_bus_try_send; on
WOULD_BLOCK re-resolve the channel, snapshot its generation, enqueue on
the send queue and suspend.  The next element of env is the bus observed
at resumption; a generation mismatch there fails with NO_CHANNEL.  Fuel
bounds the number of loop iterations; exhaustion returns Option.none. -/
def coro_bus_send : Nat → St → Int → Nat → List Bus → Option (Int × St)
  | 0, _, _, _, _ => Option.none
  | fuel+1, st, channel, data, env =>
    let r := coro_bus_try_send st channel data
    if r.1 = 0 then Option.some (0, r.2)
    else if r.2.err = ErrCode.NO_CHANNEL then Option.some (-1, r.2)
    else
      match channel_get r.2.bus channel with
      | Option.none => Option.some (-1, { r.2 with err := ErrCode.NO_CHANNEL })
      | Option.some _ =>
        let gen := channel_gen_get r.2.bus channel
        match env with
        | [] => Option.none
        | b :: env2 =>
          if channel_is_same b channel gen then
            coro_bus_send fuel { bus := b, err := r.2.err } channel data env2
          else Option.some (-1, ({ bus := b, err := ErrCode.NO_CHANNEL } : St))

/-- Model of the blocking coro_bus_recv, symmetric to coro_bus_send on the
receive queue; the middle component is the out parameter, written only on
success. -/
def coro_bus_recv : Nat → St → Int → List Bus → Option (Int × Option Nat × St)
  | 0, _, _, _ => Option.none
  | fuel+1, st, channel, env =>
    let r := coro_bus_try_recv st channel
    if r.1 = 0 then Option.some r
    else if r.2.2.err = ErrCode.NO_CHANNEL then Option.some (-1, Option.none, r.2.2)
    else
      match channel_get r.2.2.bus channel with
      | Option.none => Option.some (-1, Option.none, { r.2.2 with err := ErrCode.NO_CHANNEL })
      | Option.some _ =>
        let gen := channel_gen_get r.2.2.bus channel
        match env with
        | [] => Option.none
        | b :: env2 =>
          if channel_is_same b channel gen then
            coro_bus_recv fuel { bus := b, err := r.2.2.err } channel env2
          else Option.some (-1, Option.none, ({ bus := b, err := ErrCode.NO_CHANNEL } : St))

/-- Loop body of the blocking coro_bus_send_v after the count == 0 check:
resolve the channel, suspend with a generation guard while free_space is
0, else transfer min of count and (unsigned)free_space values. -/
def coro_bus_send_v_loop : Nat → St → Int → List Nat → Nat → List Bus → Option (Int × St)
  | 0, _, _, _, _, _ => Option.none
  | fuel+1, st, channel, data, count, env =>
    match channel_get st.bus channel with
    | Option.none => Option.some (-1, { st with err := ErrCode.NO_CHANNEL })
    | Option.some ch =>
      let free_space := (U64 + ch.sizeLimit - ch.data.length) % U64
      if free_space = 0 then
        let gen := channel_gen_get st.bus channel
        match env with
        | [] => Option.none
        | b :: env2 =>
          if channel_is_same b channel gen then
            coro_bus_send_v_loop fuel { bus := b, err := st.err } channel data count env2
          else Option.some (-1, ({ bus := b, err := ErrCode.NO_CHANNEL } : St))
      else
        let to_send := min count (free_space % U32)
        Option.some (int_of_unsigned to_send,
          { bus := bus_set_channel st.bus channel (Option.some
              { ch with data := ch.data ++ data.take to_send,
                        recvQueue := wakeup_queue_wakeup_n ch.recvQueue to_send }),
            err := ErrCode.NONE })

/-- Model of the blocking coro_bus_send_v: count == 0 succeeds at once
with NONE, before the handle is ever resolved. -/
def coro_bus_send_v (fuel : Nat) (st : St) (channel : Int) (data : List Nat) (count : Nat)
    (env : List Bus) : Option (Int × St) :=
  if count = 0 then Option.some (0, { st with err := ErrCode.NONE })
  else coro_bus_send_v_loop fuel st channel data count env

/-- Loop body of the blocking coro_bus_recv_v after the capacity == 0
check. -/
def coro_bus_recv_v_loop : Nat → St → Int → Nat → List Bus → Option (Int × List Nat × St)
  | 0, _, _, _, _ => Option.none
  | fuel+1, st, channel, capacity, env =>
    match channel_get st.bus channel with
    | Option.none => Option.some (-1, [], { st with err := ErrCode.NO_CHANNEL })
    | Option.some ch =>
      if ch.data = [] then
        let gen := channel_gen_get st.bus channel
        match env with
        | [] => Option.none
        | b :: env2 =>
          if channel_is_same b channel gen then
            coro_bus_recv_v_loop fuel { bus := b, err := st.err } channel capacity env2
          else Option.some (-1, [], ({ bus := b, err := ErrCode.NO_CHANNEL } : St))
      else
        let to_recv := min capacity (ch.data.length % U32)
        Option.some (int_of_unsigned to_recv, ch.data.take to_recv,
          { bus := bus_set_channel st.bus channel (Option.some
              { ch with data := ch.data.drop to_recv,
                        sendQueue := wakeup_queue_wakeup_n ch.sendQueue to_recv }),
            err := ErrCode.NONE })

/-- Model of the blocking coro_bus_recv_v: capacity == 0 succeeds at once
with NONE, before the handle is ever resolved. -/
def coro_bus_recv_v (fuel : Nat) (st : St) (channel : Int) (capacity : Nat)
    (env : List Bus) : Option (Int × List Nat × St) :=
  if capacity = 0 then Option.some (0, [], { st with err := ErrCode.NONE })
  else coro_bus_recv_v_loop fuel st channel capacity env

/-- Model of the blocking coro_bus_broadcast: fail NO_CHANNEL when no live
channel exists, deliver to all when none is full, else suspend on the send
queue of the first full channel and rescan after resumption (the source
performs no generation check here, it simply restarts the scan). -/
def coro_bus_broadcast : Nat → St → Nat → List Bus → Option (Int × St)
  | 0, _, _, _ => Option.none
  | fuel+1, st, data, env =>
    if st.bus.channels.all Option.isNone then
      Option.some (-1, { st with err := ErrCode.NO_CHANNEL })
    else if st.bus.channels.any (fun o =>
         match o with
         | Option.none => false
         | Option.some ch => decide (ch.sizeLimit ≤ ch.data.length)) then
      match env with
      | [] => Option.none
      | b :: env2 => coro_bus_broadcast fuel { bus := b, err := st.err } data env2
    else
      Option.some (0,
        { bus := { st.bus with channels := st.bus.channels.map (Option.map (broadcast_push data)) },
          err := ErrCode.NONE })

/-- Atomic events observable on the bus state: the non-blocking operations
together with channel lifecycle, plus the two suspension events, the only
points at which a blocking operation mutates the bus before returning.  A
suspension event enqueues the task only under the condition that makes the
corresponding blocking operation suspend (full buffer for senders, empty
buffer for receivers, on a live channel); otherwise it is a no-op. -/
inductive Op where
  | openCh (size_limit : Nat)
  | closeCh (channel : Int)
  | trySend (channel : Int) (v : Nat)
  | tryRecv (channel : Int)
  | trySendV (channel : Int) (data : List Nat) (count : Nat)
  | tryRecvV (channel : Int) (capacity : Nat)
  | tryBroadcast (v : Nat)
  | suspendSend (task : Nat) (channel : Int)
  | suspendRecv (task : Nat) (channel : Int)
  deriving DecidableEq

/-- State transition of one atomic event. -/
def applyOp (st : St) (op : Op) : St :=
  match op with
  | Op.openCh n => (coro_bus_channel_open st n).2
  | Op.closeCh c => coro_bus_channel_close st c
  | Op.trySend c v => (coro_bus_try_send st c v).2
  | Op.tryRecv c => (coro_bus_try_recv st c).2.2
  | Op.trySendV c d n => (coro_bus_try_send_v st c d n).2
  | Op.tryRecvV c n => (coro_bus_try_recv_v st c n).2.2
  | Op.tryBroadcast v => (coro_bus_try_broadcast st v).2
  | Op.suspendSend t c =>
    match channel_get st.bus c with
    | Option.none => st
    | Option.some ch =>
      if ch.sizeLimit ≤ ch.data.length then
        { st with bus := bus_set_channel st.bus c (Option.some
            { ch with sendQueue := wakeup_queue_suspend_this ch.sendQueue t }) }
      else st
  | Op.suspendRecv t c =>
    match channel_get st.bus c with
    | Option.none => st
    | Option.some ch =>
      if ch.data = [] then
        { st with bus := bus_set_channel st.bus c (Option.some
            { ch with recvQueue := wakeup_queue_suspend_this ch.recvQueue t }) }
      else st

/-- Run a sequence of atomic events. -/
def applyOps (st : St) (ops : List Op) : St := ops.foldl applyOp st

/-- A bus state is reachable when some sequence of events produces it from
the state made by coro_bus_new. -/
def reachable (st : St) : Prop := ∃ ops : List Op, applyOps coro_bus_new ops = st

/-- Harness for claim C3: perform the given sends in order with
coro_bus_try_send, all of which must succeed. -/
def trySendAll : List Nat → St → Int → Option St
  | [], st, _ => Option.some st
  | v :: vs, st, channel =>
    let r := coro_bus_try_send st channel v
    if r.1 = 0 then trySendAll vs r.2 channel else Option.none

/-- Harness for claim C3: perform n receives with coro_bus_try_recv, all
of which must succeed, collecting the received values in order. -/
def tryRecvN : Nat → St → Int → Option (List Nat × St)
  | 0, st, _ => Option.some ([], st)
  | n+1, st, channel =>
    let r := coro_bus_try_recv st channel
    if r.1 = 0 then
      match r.2.1 with
      | Option.some v =>
        match tryRecvN n r.2.2 channel with
        | Option.some (vs, st2) => Option.some (v :: vs, st2)
        | Option.none => Option.none
      | Option.none => Option.none
    else Option.none

/-- The exclusive-waiter invariant exactly as claim C1 states it: on every
live channel, the buffer length is strictly below capacity or the send
waiter queue is empty, and the buffer is non-empty or the receive waiter
queue is empty. -/
def exclusive_waiter_claim (st : St) : Bool :=
  st.bus.channels.all (fun o =>
    match o with
    | Option.none => true
    | Option.some ch =>
      (decide (ch.data.length < ch.sizeLimit) || decide (ch.sendQueue = [])) &&
      (decide (0 < ch.data.length) || decide (ch.recvQueue = [])))

/-- Bounded-buffer predicate on a channel array: every live channel holds
no more messages than its capacity. -/
def channels_bounded (l : List (Option Channel)) : Prop :=
  ∀ o ∈ l, ∀ ch, o = Option.some ch → ch.data.length ≤ ch.sizeLimit

/- ------------------------------------------------------------------ -/
/- Helper lemmas                                                      -/
/- ------------------------------------------------------------------ -/

theorem int_of_unsigned_small {n : Nat} (h : n < 2147483648) :
    int_of_unsigned n = (n : Int) := by
  unfold int_of_unsigned U32
  have e : (n + 2147483648) % 4294967296 = n + 2147483648 :=
    Nat.mod_eq_of_lt (by omega)
  rw [e]
  push_cast
  omega

theorem channel_get_spec {bus : Bus} {c : Int} {ch : Channel}
    (h : channel_get bus c = Option.some ch) :
    0 ≤ c ∧ c.toNat < bus.channels.length ∧
      bus.channels.getD c.toNat Option.none = Option.some ch := by
  unfold channel_get at h
  split at h
  · exact absurd h (by simp)
  · rename_i hc
    push_neg at hc
    exact ⟨hc.1, by omega, h⟩

theorem channel_get_mem {bus : Bus} {c : Int} {ch : Channel}
    (h : channel_get bus c = Option.some ch) :
    Option.some ch ∈ bus.channels := by
  obtain ⟨_, h1, h2⟩ := channel_get_spec h
  rw [List.getD_eq_getElem _ _ h1] at h2
  exact h2 ▸ List.getElem_mem h1

theorem channel_get_set_self {bus : Bus} {c : Int} (x : Option Channel)
    (h0 : 0 ≤ c) (h1 : c.toNat < bus.channels.length) :
    channel_get (bus_set_channel bus c x) c = x := by
  unfold channel_get bus_set_channel
  simp only [List.length_set]
  rw [if_neg (by omega)]
  rw [List.getD_eq_getElem?_getD, List.getElem?_set_self h1, Option.getD_some]

theorem channels_bounded_set {l : List (Option Channel)} {i : Nat} {x : Option Channel}
    (h : channels_bounded l)
    (hx : ∀ ch, x = Option.some ch → ch.data.length ≤ ch.sizeLimit) :
    channels_bounded (l.set i x) := by
  intro o ho ch hch
  rcases List.mem_or_eq_of_mem_set ho with h2 | h2
  · exact h o h2 ch hch
  · exact hx ch (h2 ▸ hch)

/- ------------------------------------------------------------------ -/
/- Claim C10                                                          -/
/- ------------------------------------------------------------------ -/

/-- C10 (confirmed): the vector operations called with count 0, resp.
capacity 0, return 0 and set the last error to NONE without resolving the
handle; the handle here is an arbitrary integer, covering out-of-range
indices and tombstoned slots alike, and the bus is left unchanged. -/
theorem c10_zero_count_never_resolves (fuel : Nat) (st : St) (channel : Int)
    (data : List Nat) (env : List Bus) :
    coro_bus_try_send_v st channel data 0 = (0, { st with err := ErrCode.NONE }) ∧
    coro_bus_try_recv_v st channel 0 = (0, [], { st with err := ErrCode.NONE }) ∧
    coro_bus_send_v fuel st channel data 0 env =
      Option.some (0, { st with err := ErrCode.NONE }) ∧
    coro_bus_recv_v fuel st channel 0 env =
      Option.some (0, [], { st with err := ErrCode.NONE }) :=
  ⟨rfl, rfl, rfl, rfl⟩

/- ------------------------------------------------------------------ -/
/- Claim C5                                                           -/
/- ------------------------------------------------------------------ -/

/-- C5 (confirmed): the scalar non-blocking contract.  try_send fails with
NO_CHANNEL when the handle does not resolve, fails with WOULD_BLOCK with
the whole state unchanged when the buffer is at capacity, and otherwise
appends the value at the tail, wakes at most one receive waiter (the head
of the queue, when present), sets NONE and returns 0; try_recv is
symmetric on an empty buffer, popping the head into the out parameter and
waking at most one send waiter on success.  The full branch is stated at
buffer length equal to capacity; states with a longer buffer do not occur,
as the reachable-state bound of claim C1 shows. -/
theorem c5_scalar_try_contract (st : St) (channel : Int) (v : Nat) :
    (channel_get st.bus channel = Option.none →
       coro_bus_try_send st channel v = (-1, { st with err := ErrCode.NO_CHANNEL }) ∧
       coro_bus_try_recv st channel = (-1, Option.none, { st with err := ErrCode.NO_CHANNEL })) ∧
    (∀ ch, channel_get st.bus channel = Option.some ch →
       ch.data.length = ch.sizeLimit →
       coro_bus_try_send st channel v = (-1, { st with err := ErrCode.WOULD_BLOCK })) ∧
    (∀ ch, channel_get st.bus channel = Option.some ch →
       ch.data.length < ch.sizeLimit →
       coro_bus_try_send st channel v =
         (0, { bus := bus_set_channel st.bus channel (Option.some
                 { ch with data := ch.data ++ [v],
                           recvQueue := wakeup_queue_wakeup_first ch.recvQueue }),
               err := ErrCode.NONE })) ∧
    (∀ ch, channel_get st.bus channel = Option.some ch →
       ch.data = [] →
       coro_bus_try_recv st channel = (-1, Option.none, { st with err := ErrCode.WOULD_BLOCK })) ∧
    (∀ ch v0 rest, channel_get st.bus channel = Option.some ch →
       ch.data = v0 :: rest →
       coro_bus_try_recv st channel =
         (0, Option.some v0,
          { bus := bus_set_channel st.bus channel (Option.some
              { ch with data := rest,
                        sendQueue := wakeup_queue_wakeup_first ch.sendQueue }),
            err := ErrCode.NONE })) := by
  refine ⟨?_, ?_, ?_, ?_, ?_⟩
  · intro h
    exact ⟨by simp [coro_bus_try_send, h], by simp [coro_bus_try_recv, h]⟩
  · intro ch hch hlen
    simp [coro_bus_try_send, hch, hlen]
  · intro ch hch hlt
    have hns : ¬ (ch.sizeLimit ≤ ch.data.length) := by omega
    simp [coro_bus_try_send, hch, hns]
  · intro ch hch hnil
    simp [coro_bus_try_recv, hch, hnil]
  · intro ch v0 rest hch hdata
    simp [coro_bus_try_recv, hch, hdata]

/-- Witness for C5, instantiating every branch of the contract at concrete
reachable states: the empty bus, a full capacity-1 channel, and a fresh
capacity-1 channel. -/
theorem c5_scalar_try_contract_witness :
    coro_bus_try_send coro_bus_new 0 9 =
      (-1, { coro_bus_new with err := ErrCode.NO_CHANNEL }) ∧
    coro_bus_try_send (applyOps coro_bus_new [Op.openCh 1, Op.trySend 0 5]) 0 9 =
      (-1, { applyOps coro_bus_new [Op.openCh 1, Op.trySend 0 5] with err := ErrCode.WOULD_BLOCK }) ∧
    (coro_bus_try_send (applyOps coro_bus_new [Op.openCh 1]) 0 9).1 = 0 ∧
    (coro_bus_try_recv (applyOps coro_bus_new [Op.openCh 1]) 0).1 = -1 ∧
    coro_bus_try_recv (applyOps coro_bus_new [Op.openCh 1, Op.trySend 0 5]) 0 =
      (0, Option.some 5,
       { bus := bus_set_channel (applyOps coro_bus_new [Op.openCh 1, Op.trySend 0 5]).bus 0
           (Option.some { sizeLimit := 1, sendQueue := [], recvQueue := [], data := [] }),
         err := ErrCode.NONE }) := by
  refine ⟨?_, ?_, ?_, ?_, ?_⟩
  · exact ((c5_scalar_try_contract coro_bus_new 0 9).1 rfl).1
  · exact (c5_scalar_try_contract (applyOps coro_bus_new [Op.openCh 1, Op.trySend 0 5]) 0 9).2.1
      ⟨1, [], [], [5]⟩ rfl rfl
  · rw [(c5_scalar_try_contract (applyOps coro_bus_new [Op.openCh 1]) 0 9).2.2.1
      ⟨1, [], [], []⟩ rfl (by decide)]
  · rw [((c5_scalar_try_contract (applyOps coro_bus_new [Op.openCh 1]) 0 9).2.2.2.1
      ⟨1, [], [], []⟩ rfl rfl)]
  · have h := (c5_scalar_try_contract (applyOps coro_bus_new [Op.openCh 1, Op.trySend 0 5]) 0 9).2.2.2.2
      ⟨1, [], [], [5]⟩ 5 [] rfl rfl
    simpa [wakeup_queue_wakeup_first] using h

/- ------------------------------------------------------------------ -/
/- Claim C4                                                           -/
/- ------------------------------------------------------------------ -/

/-- C4 (confirmed): try_broadcast is all-or-none.  With no live channel it
fails with NO_CHANNEL and the state is unchanged apart from the error
variable; with some live full channel it fails with WOULD_BLOCK, again
leaving every buffer unchanged; otherwise it succeeds with NONE, and slot
by slot every live channel gets the value appended at its tail with its
head receive waiter (when present) woken, while tombstones stay
tombstones. -/
theorem c4_try_broadcast_all_or_none (st : St) (v : Nat) :
    ((∀ o ∈ st.bus.channels, o = Option.none) →
       coro_bus_try_broadcast st v = (-1, { st with err := ErrCode.NO_CHANNEL })) ∧
    ((∃ ch, Option.some ch ∈ st.bus.channels ∧ ch.sizeLimit ≤ ch.data.length) →
       coro_bus_try_broadcast st v = (-1, { st with err := ErrCode.WOULD_BLOCK })) ∧
    ((∃ x ∈ st.bus.channels, x ≠ Option.none) →
     (∀ ch, Option.some ch ∈ st.bus.channels → ch.data.length < ch.sizeLimit) →
       (coro_bus_try_broadcast st v).1 = 0 ∧
       (coro_bus_try_broadcast st v).2.err = ErrCode.NONE ∧
       (coro_bus_try_broadcast st v).2.bus.channelGens = st.bus.channelGens ∧
       (coro_bus_try_broadcast st v).2.bus.channels.length = st.bus.channels.length ∧
       (∀ i, (coro_bus_try_broadcast st v).2.bus.channels.getD i Option.none =
          (st.bus.channels.getD i Option.none).map (broadcast_push v))) := by
  refine ⟨?_, ?_, ?_⟩
  · intro h
    have h1 : st.bus.channels.any (fun o =>
        match o with
        | Option.none => false
        | Option.some ch => decide (ch.sizeLimit ≤ ch.data.length)) = false := by
      rw [List.any_eq_false]
      intro x hx
      rw [h x hx]
      simp
    have h2 : st.bus.channels.all Option.isNone = true := by
      rw [List.all_eq_true]
      intro x hx
      rw [h x hx]
      rfl
    simp [coro_bus_try_broadcast, h1, h2]
  · rintro ⟨ch, hmem, hfull⟩
    have h1 : st.bus.channels.any (fun o =>
        match o with
        | Option.none => false
        | Option.some ch => decide (ch.sizeLimit ≤ ch.data.length)) = true := by
      rw [List.any_eq_true]
      exact ⟨Option.some ch, hmem, by simpa using hfull⟩
    simp [coro_bus_try_broadcast, h1]
  · rintro ⟨x, hx, hxne⟩ hroom
    have h1 : st.bus.channels.any (fun o =>
        match o with
        | Option.none => false
        | Option.some ch => decide (ch.sizeLimit ≤ ch.data.length)) = false := by
      rw [List.any_eq_false]
      intro o ho
      cases o with
      | none => simp
      | some ch =>
        have := hroom ch ho
        simp
        omega
    have h2 : st.bus.channels.all Option.isNone = false := by
      rw [List.all_eq_false]
      cases x with
      | none => exact absurd rfl hxne
      | some ch => exact ⟨Option.some ch, hx, by simp⟩
    have hres : coro_bus_try_broadcast st v =
        (0, { bus := { st.bus with
                channels := st.bus.channels.map (Option.map (broadcast_push v)) },
              err := ErrCode.NONE }) := by
      simp [coro_bus_try_broadcast, h1, h2]
    refine ⟨by rw [hres], by rw [hres], by rw [hres], by rw [hres]; simp, ?_⟩
    intro i
    rw [hres]
    simp only []
    rw [List.getD_eq_getElem?_getD, List.getElem?_map, List.getD_eq_getElem?_getD]
    cases st.bus.channels[i]? with
    | none => rfl
    | some o => cases o <;> rfl

/-- Witness for C4, hitting each of the three branches at a concrete
state: the empty bus, a bus whose only channel has capacity 0 (hence is
full), and a bus with one fresh capacity-1 channel. -/
theorem c4_try_broadcast_all_or_none_witness :
    coro_bus_try_broadcast coro_bus_new 9 =
      (-1, { coro_bus_new with err := ErrCode.NO_CHANNEL }) ∧
    coro_bus_try_broadcast (applyOps coro_bus_new [Op.openCh 0]) 9 =
      (-1, { applyOps coro_bus_new [Op.openCh 0] with err := ErrCode.WOULD_BLOCK }) ∧
    (coro_bus_try_broadcast (applyOps coro_bus_new [Op.openCh 1]) 9).1 = 0 ∧
    (coro_bus_try_broadcast (applyOps coro_bus_new [Op.openCh 1]) 9).2.err = ErrCode.NONE := by
  refine ⟨?_, ?_, ?_, ?_⟩
  · exact (c4_try_broadcast_all_or_none coro_bus_new 9).1
      (by intro o ho; simp [coro_bus_new] at ho)
  · exact (c4_try_broadcast_all_or_none (applyOps coro_bus_new [Op.openCh 0]) 9).2.1
      ⟨⟨0, [], [], []⟩, by decide, by decide⟩
  · exact ((c4_try_broadcast_all_or_none (applyOps coro_bus_new [Op.openCh 1]) 9).2.2
      ⟨Option.some ⟨1, [], [], []⟩, by decide, by decide⟩
      (by
        intro ch hch
        have he : (applyOps coro_bus_new [Op.openCh 1]).bus.channels =
            [Option.some ⟨1, [], [], []⟩] := rfl
        rw [he] at hch
        simp at hch
        subst hch
        decide)).1
  · exact ((c4_try_broadcast_all_or_none (applyOps coro_bus_new [Op.openCh 1]) 9).2.2
      ⟨Option.some ⟨1, [], [], []⟩, by decide, by decide⟩
      (by
        intro ch hch
        have he : (applyOps coro_bus_new [Op.openCh 1]).bus.channels =
            [Option.some ⟨1, [], [], []⟩] := rfl
        rw [he] at hch
        simp at hch
        subst hch
        decide)).2.1

/- ------------------------------------------------------------------ -/
/- Claim C6                                                           -/
/- ------------------------------------------------------------------ -/

/-- C6 counterexample: on a live empty channel of capacity 2 to the 32
(a legitimate size_t capacity) and count 1, the claim demands that
try_send_v append min(1, free) = 1 element and return 1; the code casts
the size_t free space to the 32-bit unsigned type, obtaining 0, so it
appends nothing and returns 0 (with last error NONE). -/
theorem c6_vector_partial_transfer_counterexample :
    (coro_bus_try_send_v (applyOps coro_bus_new [Op.openCh 4294967296]) 0 [5] 1).1 = 0 ∧
    ((1 : Int) ≠ 0) ∧
    min 1 (4294967296 - 0) = 1 ∧
    (channel_get (coro_bus_try_send_v
        (applyOps coro_bus_new [Op.openCh 4294967296]) 0 [5] 1).2.bus 0).map Channel.data =
      Option.some [] ∧
    (coro_bus_try_send_v (applyOps coro_bus_new [Op.openCh 4294967296]) 0 [5] 1).2.err =
      ErrCode.NONE :=
  ⟨by decide, by decide, by decide, by decide, by decide⟩

/-- C6 (corrected): vector partial transfer, restricted to the range in
which the size_t to unsigned cast and the unsigned to int cast of the
source are the identity.  For a live channel with 0 < free =
capacity - buffer_len < 2 to the 32, count > 0 and n = min(count, free)
below 2 to the 31 and within the input buffer, try_send_v appends exactly
the first n input values at the tail in order, wakes up to n receive
waiters, sets NONE and returns n; try_recv_v symmetrically pops
min(capacity_arg, buffer_len) messages from the head, under the mirrored
bounds; count 0, resp. capacity 0, returns 0 immediately with NONE. -/
theorem c6_vector_partial_transfer (st : St) (channel : Int) (ch : Channel)
    (data : List Nat) (count : Nat) (capacity : Nat) :
    (channel_get st.bus channel = Option.some ch →
     ch.data.length < ch.sizeLimit →
     ch.sizeLimit - ch.data.length < U32 →
     0 < count →
     min count (ch.sizeLimit - ch.data.length) < 2147483648 →
     min count (ch.sizeLimit - ch.data.length) ≤ data.length →
     coro_bus_try_send_v st channel data count =
       (((min count (ch.sizeLimit - ch.data.length) : Nat) : Int),
        { bus := bus_set_channel st.bus channel (Option.some
            { ch with data := ch.data ++ data.take (min count (ch.sizeLimit - ch.data.length)),
                      recvQueue := wakeup_queue_wakeup_n ch.recvQueue
                        (min count (ch.sizeLimit - ch.data.length)) }),
          err := ErrCode.NONE })) ∧
    (channel_get st.bus channel = Option.some ch →
     ch.data ≠ [] →
     ch.data.length < U32 →
     0 < capacity →
     min capacity ch.data.length < 2147483648 →
     coro_bus_try_recv_v st channel capacity =
       (((min capacity ch.data.length : Nat) : Int),
        ch.data.take (min capacity ch.data.length),
        { bus := bus_set_channel st.bus channel (Option.some
            { ch with data := ch.data.drop (min capacity ch.data.length),
                      sendQueue := wakeup_queue_wakeup_n ch.sendQueue
                        (min capacity ch.data.length) }),
          err := ErrCode.NONE })) ∧
    coro_bus_try_send_v st channel data 0 = (0, { st with err := ErrCode.NONE }) ∧
    coro_bus_try_recv_v st channel 0 = (0, [], { st with err := ErrCode.NONE }) := by
  refine ⟨?_, ?_, rfl, rfl⟩
  · intro hch hlt hfree hcount hn _
    have hc0 : ¬ count = 0 := by omega
    have hU : U32 < U64 := by unfold U32 U64; omega
    have e1 : U64 + ch.sizeLimit - ch.data.length = U64 + (ch.sizeLimit - ch.data.length) := by
      omega
    have e2 : (U64 + ch.sizeLimit - ch.data.length) % U64 = ch.sizeLimit - ch.data.length := by
      rw [e1, Nat.add_mod_left, Nat.mod_eq_of_lt (by omega)]
    have e3 : (ch.sizeLimit - ch.data.length) % U32 = ch.sizeLimit - ch.data.length :=
      Nat.mod_eq_of_lt hfree
    have hne2 : ¬ (ch.sizeLimit - ch.data.length = 0) := by omega
    simp only [coro_bus_try_send_v, hc0, if_false, hch, e2, e3,
      int_of_unsigned_small hn]
    rw [if_neg hne2]
  · intro hch hne hlen hcap hn
    have hc0 : ¬ capacity = 0 := by omega
    have e3 : ch.data.length % U32 = ch.data.length := Nat.mod_eq_of_lt hlen
    simp only [coro_bus_try_recv_v, hc0, if_false, hch, hne, e3,
      int_of_unsigned_small hn]

/-- Witness for C6 at a concrete state: a channel of capacity 3 holding
one message receives two of the three offered values, then a receive with
room for five pops all three messages. -/
theorem c6_vector_partial_transfer_witness :
    (coro_bus_try_send_v (applyOps coro_bus_new [Op.openCh 3, Op.trySend 0 7]) 0 [8, 9, 10] 3).1 = 2 ∧
    (coro_bus_try_recv_v (applyOps coro_bus_new [Op.openCh 3, Op.trySend 0 7, Op.trySendV 0 [8, 9, 10] 3]) 0 5).2.1 = [7, 8, 9] := by
  constructor
  · rw [(c6_vector_partial_transfer (applyOps coro_bus_new [Op.openCh 3, Op.trySend 0 7])
      0 ⟨3, [], [], [7]⟩ [8, 9, 10] 3 5).1 rfl (by decide) (by decide) (by decide)
      (by decide) (by decide)]
    decide
  · rw [(c6_vector_partial_transfer
      (applyOps coro_bus_new [Op.openCh 3, Op.trySend 0 7, Op.trySendV 0 [8, 9, 10] 3])
      0 ⟨3, [], [], [7, 8, 9]⟩ [8, 9, 10] 3 5).2.1 (by decide) (by decide) (by decide)
      (by decide) (by decide)]
    decide

/- ------------------------------------------------------------------ -/
/- Claim C3                                                           -/
/- ------------------------------------------------------------------ -/

theorem trySendAll_spec : ∀ (vals : List Nat) (st : St) (channel : Int) (ch : Channel),
    channel_get st.bus channel = Option.some ch →
    ch.data.length + vals.length ≤ ch.sizeLimit →
    ∃ st2, trySendAll vals st channel = Option.some st2 ∧
      channel_get st2.bus channel = Option.some
        { ch with data := ch.data ++ vals,
                  recvQueue := ch.recvQueue.drop vals.length }
  | [], st, channel, ch, hch, _ => by
    refine ⟨st, rfl, ?_⟩
    simpa using hch
  | v :: vs, st, channel, ch, hch, hcap => by
    have hlen : ch.data.length + (vs.length + 1) ≤ ch.sizeLimit := by
      simpa [Nat.add_comm] using hcap
    have hns : ¬ (ch.sizeLimit ≤ ch.data.length) := by omega
    have hsend : coro_bus_try_send st channel v =
        (0, { bus := bus_set_channel st.bus channel (Option.some
                { ch with data := ch.data ++ [v],
                          recvQueue := wakeup_queue_wakeup_first ch.recvQueue }),
              err := ErrCode.NONE }) := by
      simp [coro_bus_try_send, hch, hns]
    obtain ⟨h0, h1, _⟩ := channel_get_spec hch
    have hch2 : channel_get (bus_set_channel st.bus channel (Option.some
        { ch with data := ch.data ++ [v],
                  recvQueue := wakeup_queue_wakeup_first ch.recvQueue })) channel =
        Option.some { ch with data := ch.data ++ [v],
                              recvQueue := wakeup_queue_wakeup_first ch.recvQueue } :=
      channel_get_set_self _ h0 h1
    obtain ⟨st2, hrun, hget⟩ := trySendAll_spec vs
      ({ bus := bus_set_channel st.bus channel (Option.some
           { ch with data := ch.data ++ [v],
                     recvQueue := wakeup_queue_wakeup_first ch.recvQueue }),
         err := ErrCode.NONE } : St) channel
      { ch with data := ch.data ++ [v], recvQueue := wakeup_queue_wakeup_first ch.recvQueue }
      hch2 (by simp; omega)
    refine ⟨st2, ?_, ?_⟩
    · simp only [trySendAll, hsend]
      simpa using hrun
    · rw [hget]
      simp [wakeup_queue_wakeup_first, ← List.drop_one, List.drop_drop, Nat.add_comm]

theorem tryRecvN_spec : ∀ (n : Nat) (st : St) (channel : Int) (ch : Channel),
    channel_get st.bus channel = Option.some ch →
    n ≤ ch.data.length →
    ∃ st2, tryRecvN n st channel = Option.some (ch.data.take n, st2) ∧
      channel_get st2.bus channel = Option.some
        { ch with data := ch.data.drop n, sendQueue := ch.sendQueue.drop n }
  | 0, st, channel, ch, hch, _ => by
    refine ⟨st, rfl, ?_⟩
    simpa using hch
  | n+1, st, channel, ch, hch, hlen => by
    cases hd : ch.data with
    | nil => rw [hd] at hlen; simp at hlen
    | cons v rest =>
      have hrecv : coro_bus_try_recv st channel =
          (0, Option.some v,
           { bus := bus_set_channel st.bus channel (Option.some
               { ch with data := rest,
                         sendQueue := wakeup_queue_wakeup_first ch.sendQueue }),
             err := ErrCode.NONE }) := by
        simp [coro_bus_try_recv, hch, hd]
      obtain ⟨h0, h1, _⟩ := channel_get_spec hch
      have hch2 : channel_get (bus_set_channel st.bus channel (Option.some
          { ch with data := rest,
                    sendQueue := wakeup_queue_wakeup_first ch.sendQueue })) channel =
          Option.some { ch with data := rest,
                                sendQueue := wakeup_queue_wakeup_first ch.sendQueue } :=
        channel_get_set_self _ h0 h1
      have hlen2 : n ≤ rest.length := by
        rw [hd] at hlen; simpa using hlen
      obtain ⟨st2, hrun, hget⟩ := tryRecvN_spec n
        ({ bus := bus_set_channel st.bus channel (Option.some
             { ch with data := rest,
                       sendQueue := wakeup_queue_wakeup_first ch.sendQueue }),
           err := ErrCode.NONE } : St) channel
        { ch with data := rest, sendQueue := wakeup_queue_wakeup_first ch.sendQueue }
        hch2 hlen2
      refine ⟨st2, ?_, ?_⟩
      · simp only [tryRecvN, hrecv]
        simp only [hrun, hd, List.take_succ_cons]
        rfl
      · rw [hget]
        simp [wakeup_queue_wakeup_first, ← List.drop_one, List.drop_drop, Nat.add_comm]

/-- C3 counterexample: the FIFO claim quantifies over every channel, with
no restriction on messages already buffered before the sends.  On a
capacity-2 channel that already holds the value 7, the single send of 1
succeeds and the single receive succeeds but returns 7, not the sent
value 1. -/
theorem c3_fifo_counterexample :
    ((trySendAll [1] (applyOps coro_bus_new [Op.openCh 2, Op.trySend 0 7]) 0).bind
       (fun st1 => tryRecvN 1 st1 0)).map Prod.fst = Option.some [7] ∧
    ([7] : List Nat) ≠ [1] :=
  ⟨by decide, by decide⟩

/-- C3 (corrected): FIFO delivery from an initially empty channel.  If the
live channel at the handle has an empty buffer and capacity at least n,
then the n sends of s1..sn all succeed and the n subsequent receives all
succeed and return exactly s1..sn in order, with no other operation on the
channel in between. -/
theorem c3_fifo (st : St) (channel : Int) (ch : Channel) (vals : List Nat)
    (hch : channel_get st.bus channel = Option.some ch)
    (hempty : ch.data = [])
    (hcap : vals.length ≤ ch.sizeLimit) :
    ∃ st1 st2, trySendAll vals st channel = Option.some st1 ∧
      tryRecvN vals.length st1 channel = Option.some (vals, st2) := by
  obtain ⟨st1, h1, hget⟩ := trySendAll_spec vals st channel ch hch (by rw [hempty]; simpa)
  obtain ⟨st2, h2, _⟩ := tryRecvN_spec vals.length st1 channel _ hget (by simp [hempty])
  refine ⟨st1, st2, h1, ?_⟩
  simpa [hempty] using h2

/-- Witness for C3: on a fresh capacity-3 channel, sending 4, 5, 6 and
then receiving three times yields 4, 5, 6. -/
theorem c3_fifo_witness :
    ∃ st1 st2, trySendAll [4, 5, 6] (applyOps coro_bus_new [Op.openCh 3]) 0 = Option.some st1 ∧
      tryRecvN 3 st1 0 = Option.some ([4, 5, 6], st2) :=
  c3_fifo (applyOps coro_bus_new [Op.openCh 3]) 0 ⟨3, [], [], []⟩ [4, 5, 6]
    rfl rfl (by decide)

/- ------------------------------------------------------------------ -/
/- Bounded-buffer invariant over reachable states                     -/
/- ------------------------------------------------------------------ -/

theorem channels_bounded_applyOp (st : St) (op : Op)
    (h : channels_bounded st.bus.channels) :
    channels_bounded (applyOp st op).bus.channels := by
  cases op with
  | openCh n =>
    show channels_bounded (coro_bus_channel_open st n).2.bus.channels
    unfold coro_bus_channel_open
    cases hf : st.bus.channels.findIdx? Option.isNone with
    | some i =>
      exact channels_bounded_set h
        (by intro ch hch; cases hch; simp [channel_init])
    | none =>
      intro o ho ch hch
      rcases List.mem_append.mp ho with h2 | h2
      · exact h o h2 ch hch
      · simp at h2
        subst h2
        cases hch
        simp [channel_init]
  | closeCh c =>
    show channels_bounded (coro_bus_channel_close st c).bus.channels
    unfold coro_bus_channel_close
    cases hg : channel_get st.bus c with
    | none => exact h
    | some ch =>
      exact channels_bounded_set h (by intro ch2 hch2; exact absurd hch2 (by simp))
  | trySend c v =>
    show channels_bounded (coro_bus_try_send st c v).2.bus.channels
    unfold coro_bus_try_send
    cases hg : channel_get st.bus c with
    | none => exact h
    | some ch =>
      dsimp only
      by_cases hfull : ch.sizeLimit ≤ ch.data.length
      · rw [if_pos hfull]
        exact h
      · rw [if_neg hfull]
        refine channels_bounded_set h ?_
        intro ch2 hch2
        injection hch2 with e
        subst e
        simp [wakeup_queue_wakeup_first]
        omega
  | tryRecv c =>
    show channels_bounded (coro_bus_try_recv st c).2.2.bus.channels
    unfold coro_bus_try_recv
    cases hg : channel_get st.bus c with
    | none => exact h
    | some ch =>
      dsimp only
      cases hd : ch.data with
      | nil => exact h
      | cons v rest =>
        dsimp only
        refine channels_bounded_set h ?_
        intro ch2 hch2
        injection hch2 with e
        subst e
        have hb := h _ (channel_get_mem hg) ch rfl
        rw [hd] at hb
        simp at hb ⊢
        omega
  | trySendV c d n =>
    show channels_bounded (coro_bus_try_send_v st c d n).2.bus.channels
    unfold coro_bus_try_send_v
    by_cases hn : n = 0
    · rw [if_pos hn]
      exact h
    · rw [if_neg hn]
      cases hg : channel_get st.bus c with
      | none => exact h
      | some ch =>
        dsimp only
        by_cases hf : (U64 + ch.sizeLimit - ch.data.length) % U64 = 0
        · rw [if_pos hf]
          exact h
        · rw [if_neg hf]
          refine channels_bounded_set h ?_
          intro ch2 hch2
          injection hch2 with e
          subst e
          have hb := h _ (channel_get_mem hg) ch rfl
          have hfree : (U64 + ch.sizeLimit - ch.data.length) % U64 ≤
              ch.sizeLimit - ch.data.length := by
            have e1 : U64 + ch.sizeLimit - ch.data.length =
                U64 + (ch.sizeLimit - ch.data.length) := by omega
            rw [e1, Nat.add_mod_left]
            exact Nat.mod_le _ _
          have hto : min n ((U64 + ch.sizeLimit - ch.data.length) % U64 % U32) ≤
              ch.sizeLimit - ch.data.length :=
            le_trans (le_trans (Nat.min_le_right _ _) (Nat.mod_le _ _)) hfree
          simp only [List.length_append, List.length_take]
          omega
  | tryRecvV c n =>
    show channels_bounded (coro_bus_try_recv_v st c n).2.2.bus.channels
    unfold coro_bus_try_recv_v
    by_cases hn : n = 0
    · rw [if_pos hn]
      exact h
    · rw [if_neg hn]
      cases hg : channel_get st.bus c with
      | none => exact h
      | some ch =>
        dsimp only
        by_cases hd : ch.data = []
        · rw [if_pos hd]
          exact h
        · rw [if_neg hd]
          refine channels_bounded_set h ?_
          intro ch2 hch2
          injection hch2 with e
          subst e
          have hb := h _ (channel_get_mem hg) ch rfl
          simp only [List.length_drop]
          omega
  | tryBroadcast v =>
    show channels_bounded (coro_bus_try_broadcast st v).2.bus.channels
    unfold coro_bus_try_broadcast
    split
    · exact h
    · split
      · exact h
      · rename_i hany _
        intro o ho ch hch
        rcases List.mem_map.mp ho with ⟨o2, ho2, rfl⟩
        cases o2 with
        | none => exact absurd hch (by simp)
        | some ch0 =>
          have e : broadcast_push v ch0 = ch := by simpa using hch
          subst e
          have hnf : ¬ (ch0.sizeLimit ≤ ch0.data.length) := by
            intro hfull
            exact hany (List.any_eq_true.mpr ⟨Option.some ch0, ho2, by simpa using hfull⟩)
          simp [broadcast_push, wakeup_queue_wakeup_first]
          omega
  | suspendSend t c =>
    simp only [applyOp]
    cases hg : channel_get st.bus c with
    | none => exact h
    | some ch =>
      dsimp only
      by_cases hcond : ch.sizeLimit ≤ ch.data.length
      · rw [if_pos hcond]
        refine channels_bounded_set h ?_
        intro ch2 hch2
        injection hch2 with e
        subst e
        simpa using h _ (channel_get_mem hg) ch rfl
      · rw [if_neg hcond]
        exact h
  | suspendRecv t c =>
    simp only [applyOp]
    cases hg : channel_get st.bus c with
    | none => exact h
    | some ch =>
      dsimp only
      by_cases hcond : ch.data = []
      · rw [if_pos hcond]
        refine channels_bounded_set h ?_
        intro ch2 hch2
        injection hch2 with e
        subst e
        simpa using h _ (channel_get_mem hg) ch rfl
      · rw [if_neg hcond]
        exact h

theorem channels_bounded_applyOps : ∀ (ops : List Op) (st : St),
    channels_bounded st.bus.channels →
    channels_bounded (applyOps st ops).bus.channels
  | [], _, h => h
  | op :: ops, st, h =>
    channels_bounded_applyOps ops (applyOp st op) (channels_bounded_applyOp st op h)

theorem reachable_bounded {st : St} (h : reachable st) :
    channels_bounded st.bus.channels := by
  obtain ⟨ops, rfl⟩ := h
  exact channels_bounded_applyOps ops coro_bus_new
    (by intro o ho ch hch; simp [coro_bus_new] at ho)

/- ------------------------------------------------------------------ -/
/- Claim C1                                                           -/
/- ------------------------------------------------------------------ -/

/-- C1 counterexample: the state reached by opening one capacity-1
channel and letting one receiver block on it (a receiver of a blocking
recv call suspends exactly when the buffer is empty) has an empty buffer
and a non-empty recv_waiters queue, so the conjunct asserting that the
buffer is non-empty or recv_waiters is empty fails at this observation
point. -/
theorem c1_exclusive_waiter_counterexample :
    reachable (applyOps coro_bus_new [Op.openCh 1, Op.suspendRecv 7 0]) ∧
    exclusive_waiter_claim (applyOps coro_bus_new [Op.openCh 1, Op.suspendRecv 7 0]) = false :=
  ⟨⟨[Op.openCh 1, Op.suspendRecv 7 0], rfl⟩, by decide⟩

/-- C1 (corrected): in every reachable bus state every live channel obeys
the bounded-buffer invariant, buffer length at most capacity, and a waiter
is enqueued only under its blocking condition: a suspension step on the
send queue of a live channel whose buffer is below capacity is a no-op,
and a suspension step on the receive queue of a live channel with a
non-empty buffer is a no-op.  The two state-level implications of the
original claim do not hold at every observation point, because waking a
waiter removes only that one queue entry while the buffer condition of the
remaining waiters may already have changed. -/
theorem c1_exclusive_waiter_amended (st : St) (hr : reachable st) :
    (∀ o ∈ st.bus.channels, ∀ ch, o = Option.some ch →
       ch.data.length ≤ ch.sizeLimit) ∧
    (∀ t channel ch, channel_get st.bus channel = Option.some ch →
       ch.data.length < ch.sizeLimit →
       applyOp st (Op.suspendSend t channel) = st) ∧
    (∀ t channel ch, channel_get st.bus channel = Option.some ch →
       ch.data ≠ [] →
       applyOp st (Op.suspendRecv t channel) = st) := by
  refine ⟨reachable_bounded hr, ?_, ?_⟩
  · intro t channel ch hg hlt
    simp only [applyOp, hg]
    rw [if_neg (by omega)]
  · intro t channel ch hg hne
    simp only [applyOp, hg]
    rw [if_neg hne]

/-- Witness for C1 at the reachable state holding one capacity-2 channel
with one buffered message: both suspension guards refuse to enqueue and
the buffer bound holds. -/
theorem c1_exclusive_waiter_amended_witness :
    applyOp (applyOps coro_bus_new [Op.openCh 2, Op.trySend 0 9]) (Op.suspendSend 3 0) =
      applyOps coro_bus_new [Op.openCh 2, Op.trySend 0 9] ∧
    applyOp (applyOps coro_bus_new [Op.openCh 2, Op.trySend 0 9]) (Op.suspendRecv 4 0) =
      applyOps coro_bus_new [Op.openCh 2, Op.trySend 0 9] ∧
    (⟨2, [], [], [9]⟩ : Channel).data.length ≤ (⟨2, [], [], [9]⟩ : Channel).sizeLimit := by
  have h := c1_exclusive_waiter_amended (applyOps coro_bus_new [Op.openCh 2, Op.trySend 0 9])
    ⟨[Op.openCh 2, Op.trySend 0 9], rfl⟩
  exact ⟨h.2.1 3 0 ⟨2, [], [], [9]⟩ rfl (by decide),
         h.2.2 4 0 ⟨2, [], [], [9]⟩ rfl (by decide),
         h.1 (Option.some ⟨2, [], [], [9]⟩) (by decide) ⟨2, [], [], [9]⟩ rfl⟩

/- ------------------------------------------------------------------ -/
/- Claim C9                                                           -/
/- ------------------------------------------------------------------ -/

/-- C9 (confirmed): a live capacity-0 channel is unusable for transfer.
In every reachable state, try_send on it fails with WOULD_BLOCK, try_send_v
with positive count fails with WOULD_BLOCK, its buffer is empty (and by
the quantification over every reachable state it remains empty forever),
and try_broadcast on any bus holding such a channel fails with
WOULD_BLOCK. -/
theorem c9_zero_capacity (st : St) (channel : Int) (ch : Channel) (v : Nat)
    (data : List Nat) (count : Nat)
    (hr : reachable st) (hch : channel_get st.bus channel = Option.some ch)
    (h0 : ch.sizeLimit = 0) :
    coro_bus_try_send st channel v = (-1, { st with err := ErrCode.WOULD_BLOCK }) ∧
    (0 < count → coro_bus_try_send_v st channel data count =
       (-1, { st with err := ErrCode.WOULD_BLOCK })) ∧
    ch.data = [] ∧
    coro_bus_try_broadcast st v = (-1, { st with err := ErrCode.WOULD_BLOCK }) := by
  have hb := reachable_bounded hr _ (channel_get_mem hch) ch rfl
  have hdat : ch.data = [] := by
    rw [h0] at hb
    exact List.eq_nil_of_length_eq_zero (by omega)
  refine ⟨?_, ?_, hdat, ?_⟩
  · have hf2 : ch.sizeLimit ≤ ch.data.length := by omega
    simp [coro_bus_try_send, hch, hf2]
  · intro hcnt
    have hc0 : ¬ count = 0 := by omega
    have hfree : (U64 + ch.sizeLimit - ch.data.length) % U64 = 0 := by
      rw [h0, hdat]
      simp
    simp [coro_bus_try_send_v, hc0, hch, hfree]
  · have h1 : st.bus.channels.any (fun o =>
        match o with
        | Option.none => false
        | Option.some c2 => decide (c2.sizeLimit ≤ c2.data.length)) = true :=
      List.any_eq_true.mpr ⟨Option.some ch, channel_get_mem hch, by simp; omega⟩
    simp [coro_bus_try_broadcast, h1]

/-- Witness for C9 at the bus with exactly one freshly opened capacity-0
channel. -/
theorem c9_zero_capacity_witness :
    coro_bus_try_send (applyOps coro_bus_new [Op.openCh 0]) 0 5 =
      (-1, { applyOps coro_bus_new [Op.openCh 0] with err := ErrCode.WOULD_BLOCK }) ∧
    coro_bus_try_send_v (applyOps coro_bus_new [Op.openCh 0]) 0 [5] 1 =
      (-1, { applyOps coro_bus_new [Op.openCh 0] with err := ErrCode.WOULD_BLOCK }) ∧
    coro_bus_try_broadcast (applyOps coro_bus_new [Op.openCh 0]) 5 =
      (-1, { applyOps coro_bus_new [Op.openCh 0] with err := ErrCode.WOULD_BLOCK }) := by
  have h := c9_zero_capacity (applyOps coro_bus_new [Op.openCh 0]) 0 ⟨0, [], [], []⟩ 5 [5] 1
    ⟨[Op.openCh 0], rfl⟩ rfl rfl
  exact ⟨h.1, h.2.1 (by decide), h.2.2.2⟩

/- ------------------------------------------------------------------ -/
/- Claim C7                                                           -/
/- ------------------------------------------------------------------ -/

theorem channel_gen_get_eq {bus : Bus} {c : Int}
    (h0 : 0 ≤ c) (h1 : c.toNat < bus.channels.length) :
    channel_gen_get bus c = bus.channelGens.getD c.toNat 0 := by
  unfold channel_gen_get
  rw [if_neg (by omega)]

theorem gens_getD_mono_applyOp (st : St) (op : Op) (i : Nat) :
    st.bus.channelGens.getD i 0 ≤ (applyOp st op).bus.channelGens.getD i 0 := by
  cases op with
  | openCh n =>
    show st.bus.channelGens.getD i 0 ≤
      (coro_bus_channel_open st n).2.bus.channelGens.getD i 0
    unfold coro_bus_channel_open
    cases hf : st.bus.channels.findIdx? Option.isNone with
    | some j => exact le_refl _
    | none =>
      dsimp only
      by_cases hi : i < st.bus.channelGens.length
      · rw [List.getD_eq_getElem?_getD, List.getD_eq_getElem?_getD,
          List.getElem?_append, if_pos hi]
      · rw [List.getD_eq_getElem?_getD st.bus.channelGens,
          List.getElem?_eq_none (by omega)]
        simp
  | closeCh c =>
    show st.bus.channelGens.getD i 0 ≤
      (coro_bus_channel_close st c).bus.channelGens.getD i 0
    unfold coro_bus_channel_close
    cases hg : channel_get st.bus c with
    | none => exact le_refl _
    | some ch =>
      dsimp only
      obtain ⟨h0, h1, _⟩ := channel_get_spec hg
      by_cases hij : c.toNat = i
      · subst hij
        by_cases hlt : c.toNat < st.bus.channelGens.length
        · rw [List.getD_eq_getElem?_getD (st.bus.channelGens.set _ _),
            List.getElem?_set_self hlt, Option.getD_some,
            channel_gen_get_eq h0 h1]
          omega
        · rw [List.getD_eq_getElem?_getD st.bus.channelGens,
            List.getElem?_eq_none (by omega)]
          simp
      · rw [List.getD_eq_getElem?_getD (st.bus.channelGens.set _ _),
          List.getElem?_set_ne hij, ← List.getD_eq_getElem?_getD]
  | trySend c v =>
    show st.bus.channelGens.getD i 0 ≤
      (coro_bus_try_send st c v).2.bus.channelGens.getD i 0
    unfold coro_bus_try_send
    cases channel_get st.bus c with
    | none => exact le_refl _
    | some ch =>
      dsimp only
      split <;> exact le_refl _
  | tryRecv c =>
    show st.bus.channelGens.getD i 0 ≤
      (coro_bus_try_recv st c).2.2.bus.channelGens.getD i 0
    unfold coro_bus_try_recv
    cases channel_get st.bus c with
    | none => exact le_refl _
    | some ch =>
      dsimp only
      cases ch.data with
      | nil => exact le_refl _
      | cons v rest => exact le_refl _
  | trySendV c d n =>
    show st.bus.channelGens.getD i 0 ≤
      (coro_bus_try_send_v st c d n).2.bus.channelGens.getD i 0
    unfold coro_bus_try_send_v
    split
    · exact le_refl _
    · cases channel_get st.bus c with
      | none => exact le_refl _
      | some ch =>
        dsimp only
        split <;> exact le_refl _
  | tryRecvV c n =>
    show st.bus.channelGens.getD i 0 ≤
      (coro_bus_try_recv_v st c n).2.2.bus.channelGens.getD i 0
    unfold coro_bus_try_recv_v
    split
    · exact le_refl _
    · cases channel_get st.bus c with
      | none => exact le_refl _
      | some ch =>
        dsimp only
        split <;> exact le_refl _
  | tryBroadcast v =>
    show st.bus.channelGens.getD i 0 ≤
      (coro_bus_try_broadcast st v).2.bus.channelGens.getD i 0
    unfold coro_bus_try_broadcast
    split
    · exact le_refl _
    · split <;> exact le_refl _
  | suspendSend t c =>
    simp only [applyOp]
    cases channel_get st.bus c with
    | none => exact le_refl _
    | some ch =>
      dsimp only
      split <;> exact le_refl _
  | suspendRecv t c =>
    simp only [applyOp]
    cases channel_get st.bus c with
    | none => exact le_refl _
    | some ch =>
      dsimp only
      split <;> exact le_refl _

theorem gens_getD_mono_applyOps : ∀ (ops : List Op) (st : St) (i : Nat),
    st.bus.channelGens.getD i 0 ≤ (applyOps st ops).bus.channelGens.getD i 0
  | [], _, _ => le_refl _
  | op :: ops, st, i =>
    le_trans (gens_getD_mono_applyOp st op i) (gens_getD_mono_applyOps ops (applyOp st op) i)

/-- C7 (confirmed): generation discipline.  Across every sequence of
operations (in particular every sequence of channel_open and channel_close
calls) each generation entry is non-decreasing; channel_close on a live
slot increments exactly that slot generation by one; channel_open reusing
a tombstone slot leaves the generation array untouched; and channel_open
appending a fresh slot extends the generation array with the value 1,
returned handle equal to the old channel count, so the fresh slot starts
at generation 1 (the length side condition records that the two parallel
arrays have equal length, which every bus built by the operations
satisfies). -/
theorem c7_generation_discipline :
    (∀ (st : St) (ops : List Op) (i : Nat),
       st.bus.channelGens.getD i 0 ≤ (applyOps st ops).bus.channelGens.getD i 0) ∧
    (∀ (st : St) (channel : Int) (ch : Channel),
       channel_get st.bus channel = Option.some ch →
       st.bus.channelGens.length = st.bus.channels.length →
       channel_gen_get (coro_bus_channel_close st channel).bus channel =
         channel_gen_get st.bus channel + 1) ∧
    (∀ (st : St) (cap : Nat), Option.none ∈ st.bus.channels →
       (coro_bus_channel_open st cap).2.bus.channelGens = st.bus.channelGens) ∧
    (∀ (st : St) (cap : Nat), Option.none ∉ st.bus.channels →
       (coro_bus_channel_open st cap).1 = (st.bus.channels.length : Int) ∧
       (coro_bus_channel_open st cap).2.bus.channelGens = st.bus.channelGens ++ [1] ∧
       (st.bus.channelGens.length = st.bus.channels.length →
        channel_gen_get (coro_bus_channel_open st cap).2.bus
          (st.bus.channels.length : Int) = 1)) := by
  refine ⟨fun st ops i => gens_getD_mono_applyOps ops st i, ?_, ?_, ?_⟩
  · intro st channel ch hg hlen
    obtain ⟨h0, h1, _⟩ := channel_get_spec hg
    have hcl : coro_bus_channel_close st channel =
        { bus := { channels := st.bus.channels.set channel.toNat Option.none,
                   channelGens := st.bus.channelGens.set channel.toNat
                     (channel_gen_get st.bus channel + 1) },
          err := st.err } := by
      unfold coro_bus_channel_close
      rw [hg]
    rw [hcl, channel_gen_get_eq h0 (by simpa using h1),
      List.getD_eq_getElem?_getD, List.getElem?_set_self (by omega), Option.getD_some]
  · intro st cap hmem
    cases hf : st.bus.channels.findIdx? Option.isNone with
    | none => exact absurd (List.findIdx?_eq_none_iff.mp hf Option.none hmem) (by simp)
    | some j =>
      unfold coro_bus_channel_open
      rw [hf]
  · intro st cap hnm
    have hf : st.bus.channels.findIdx? Option.isNone = Option.none := by
      rw [List.findIdx?_eq_none_iff]
      intro x hx
      cases x with
      | none => exact absurd hx hnm
      | some ch => rfl
    have hop : coro_bus_channel_open st cap =
        ((st.bus.channels.length : Int),
         { bus := { channels := st.bus.channels ++ [Option.some (channel_init cap)],
                    channelGens := st.bus.channelGens ++ [1] },
           err := ErrCode.NONE }) := by
      unfold coro_bus_channel_open
      rw [hf]
    refine ⟨by rw [hop], by rw [hop], ?_⟩
    intro hlen
    rw [hop, channel_gen_get_eq (by omega)
      (by simp only [List.length_append, List.length_singleton]; omega)]
    have ht : ((st.bus.channels.length : Int)).toNat = st.bus.channels.length := by omega
    rw [ht, List.getD_eq_getElem?_getD, List.getElem?_append, if_neg (by omega)]
    simp [hlen]

/-- Witness for C7: monotonicity along the trace open-close, the close
increment on a live slot, tombstone reuse keeping the generation array,
and a fresh append starting at generation 1. -/
theorem c7_generation_discipline_witness :
    coro_bus_new.bus.channelGens.getD 0 0 ≤
      (applyOps coro_bus_new [Op.openCh 1, Op.closeCh 0]).bus.channelGens.getD 0 0 ∧
    channel_gen_get (coro_bus_channel_close (applyOps coro_bus_new [Op.openCh 1]) 0).bus 0 =
      channel_gen_get (applyOps coro_bus_new [Op.openCh 1]).bus 0 + 1 ∧
    (coro_bus_channel_open (applyOps coro_bus_new [Op.openCh 1, Op.closeCh 0]) 2).2.bus.channelGens =
      (applyOps coro_bus_new [Op.openCh 1, Op.closeCh 0]).bus.channelGens ∧
    (coro_bus_channel_open (applyOps coro_bus_new [Op.openCh 1]) 2).2.bus.channelGens =
      (applyOps coro_bus_new [Op.openCh 1]).bus.channelGens ++ [1] := by
  refine ⟨c7_generation_discipline.1 coro_bus_new [Op.openCh 1, Op.closeCh 0] 0, ?_, ?_, ?_⟩
  · exact c7_generation_discipline.2.1 (applyOps coro_bus_new [Op.openCh 1]) 0
      ⟨1, [], [], []⟩ rfl rfl
  · exact c7_generation_discipline.2.2.1 (applyOps coro_bus_new [Op.openCh 1, Op.closeCh 0]) 2
      (by decide)
  · exact (c7_generation_discipline.2.2.2 (applyOps coro_bus_new [Op.openCh 1]) 2
      (by decide)).2.1

/- ------------------------------------------------------------------ -/
/- Claim C2                                                           -/
/- ------------------------------------------------------------------ -/

theorem coro_bus_try_send_spec (st : St) (c : Int) (v : Nat) :
    ((coro_bus_try_send st c v).1 = 0 ∧ (coro_bus_try_send st c v).2.err = ErrCode.NONE) ∨
    ((coro_bus_try_send st c v).1 = -1 ∧ (coro_bus_try_send st c v).2.bus = st.bus ∧
      ((coro_bus_try_send st c v).2.err = ErrCode.NO_CHANNEL ∨
       (coro_bus_try_send st c v).2.err = ErrCode.WOULD_BLOCK)) := by
  unfold coro_bus_try_send
  cases channel_get st.bus c with
  | none => exact Or.inr ⟨rfl, rfl, Or.inl rfl⟩
  | some ch =>
    dsimp only
    split
    · exact Or.inr ⟨rfl, rfl, Or.inr rfl⟩
    · exact Or.inl ⟨rfl, rfl⟩

theorem coro_bus_try_recv_spec (st : St) (c : Int) :
    ((coro_bus_try_recv st c).1 = 0 ∧ (coro_bus_try_recv st c).2.2.err = ErrCode.NONE) ∨
    ((coro_bus_try_recv st c).1 = -1 ∧ (coro_bus_try_recv st c).2.2.bus = st.bus ∧
      ((coro_bus_try_recv st c).2.2.err = ErrCode.NO_CHANNEL ∨
       (coro_bus_try_recv st c).2.2.err = ErrCode.WOULD_BLOCK)) := by
  unfold coro_bus_try_recv
  cases channel_get st.bus c with
  | none => exact Or.inr ⟨rfl, rfl, Or.inl rfl⟩
  | some ch =>
    dsimp only
    cases ch.data with
    | nil => exact Or.inr ⟨rfl, rfl, Or.inr rfl⟩
    | cons v rest => exact Or.inl ⟨rfl, rfl⟩

theorem coro_bus_send_result : ∀ (fuel : Nat) (st : St) (channel : Int) (data : Nat)
    (env : List Bus) (r : Int) (st2 : St),
    coro_bus_send fuel st channel data env = Option.some (r, st2) →
    (r = 0 ∧ st2.err = ErrCode.NONE) ∨ (r = -1 ∧ st2.err = ErrCode.NO_CHANNEL)
  | 0, st, channel, data, env, r, st2 => by
    intro h
    exact absurd h (by simp [coro_bus_send])
  | fuel+1, st, channel, data, env, r, st2 => by
    intro h
    simp only [coro_bus_send] at h
    by_cases h1 : (coro_bus_try_send st channel data).1 = 0
    · rw [if_pos h1] at h
      injection h with h2
      injection h2 with ha hb
      subst ha
      subst hb
      rcases coro_bus_try_send_spec st channel data with ⟨_, he⟩ | ⟨hm, _⟩
      · exact Or.inl ⟨rfl, he⟩
      · rw [h1] at hm
        exact absurd hm (by decide)
    · rw [if_neg h1] at h
      by_cases h2 : (coro_bus_try_send st channel data).2.err = ErrCode.NO_CHANNEL
      · rw [if_pos h2] at h
        injection h with h3
        injection h3 with ha hb
        subst ha
        subst hb
        exact Or.inr ⟨rfl, h2⟩
      · rw [if_neg h2] at h
        cases hg : channel_get (coro_bus_try_send st channel data).2.bus channel with
        | none =>
          simp only [hg] at h
          injection h with h3
          injection h3 with ha hb
          subst ha
          subst hb
          exact Or.inr ⟨rfl, rfl⟩
        | some ch =>
          simp only [hg] at h
          cases env with
          | nil => exact absurd h (by simp)
          | cons b env2 =>
            dsimp only at h
            by_cases h3 : channel_is_same b channel
                (channel_gen_get (coro_bus_try_send st channel data).2.bus channel) = true
            · rw [if_pos h3] at h
              exact coro_bus_send_result fuel _ channel data env2 r st2 h
            · rw [if_neg h3] at h
              injection h with h4
              injection h4 with ha hb
              subst ha
              subst hb
              exact Or.inr ⟨rfl, rfl⟩

theorem coro_bus_recv_result : ∀ (fuel : Nat) (st : St) (channel : Int)
    (env : List Bus) (r : Int) (out : Option Nat) (st2 : St),
    coro_bus_recv fuel st channel env = Option.some (r, out, st2) →
    (r = 0 ∧ st2.err = ErrCode.NONE) ∨ (r = -1 ∧ st2.err = ErrCode.NO_CHANNEL)
  | 0, st, channel, env, r, out, st2 => by
    intro h
    exact absurd h (by simp [coro_bus_recv])
  | fuel+1, st, channel, env, r, out, st2 => by
    intro h
    simp only [coro_bus_recv] at h
    by_cases h1 : (coro_bus_try_recv st channel).1 = 0
    · rw [if_pos h1] at h
      injection h with h2
      rcases coro_bus_try_recv_spec st channel with ⟨_, he⟩ | ⟨hm, _⟩
      · have hr : (coro_bus_try_recv st channel).1 = r := congrArg Prod.fst h2
        have hs : (coro_bus_try_recv st channel).2.2 = st2 := congrArg (fun p => p.2.2) h2
        rw [← hr, ← hs]
        exact Or.inl ⟨h1, he⟩
      · rw [h1] at hm
        exact absurd hm (by decide)
    · rw [if_neg h1] at h
      by_cases h2 : (coro_bus_try_recv st channel).2.2.err = ErrCode.NO_CHANNEL
      · rw [if_pos h2] at h
        injection h with h3
        injection h3 with ha hb
        subst ha
        injection hb with hc hd
        subst hc
        subst hd
        exact Or.inr ⟨rfl, h2⟩
      · rw [if_neg h2] at h
        cases hg : channel_get (coro_bus_try_recv st channel).2.2.bus channel with
        | none =>
          simp only [hg] at h
          injection h with h3
          injection h3 with ha hb
          subst ha
          injection hb with hc hd
          subst hc
          subst hd
          exact Or.inr ⟨rfl, rfl⟩
        | some ch =>
          simp only [hg] at h
          cases env with
          | nil => exact absurd h (by simp)
          | cons b env2 =>
            dsimp only at h
            by_cases h3 : channel_is_same b channel
                (channel_gen_get (coro_bus_try_recv st channel).2.2.bus channel) = true
            · rw [if_pos h3] at h
              exact coro_bus_recv_result fuel _ channel env2 r out st2 h
            · rw [if_neg h3] at h
              injection h with h4
              injection h4 with ha hb
              subst ha
              injection hb with hc hd
              subst hc
              subst hd
              exact Or.inr ⟨rfl, rfl⟩

/-- C2 (confirmed): a blocking scalar send or recv that returns -1 always
leaves NO_CHANNEL, never WOULD_BLOCK, in the last-error variable (and a
return of 0 leaves NONE); moreover, at a resumption where the channel at
the handle no longer matches the generation snapshot taken before
suspending (channel_is_same false), the call returns -1 with NO_CHANNEL
at once instead of re-entering the retry loop. -/
theorem c2_blocking_scalar_error_codes :
    (∀ (fuel : Nat) (st : St) (channel : Int) (data : Nat) (env : List Bus)
       (r : Int) (st2 : St),
       coro_bus_send fuel st channel data env = Option.some (r, st2) →
       r = -1 → st2.err = ErrCode.NO_CHANNEL) ∧
    (∀ (fuel : Nat) (st : St) (channel : Int) (env : List Bus)
       (r : Int) (out : Option Nat) (st2 : St),
       coro_bus_recv fuel st channel env = Option.some (r, out, st2) →
       r = -1 → st2.err = ErrCode.NO_CHANNEL) ∧
    (∀ (fuel : Nat) (st : St) (channel : Int) (data : Nat) (b : Bus) (env : List Bus)
       (ch : Channel),
       (coro_bus_try_send st channel data).1 ≠ 0 →
       (coro_bus_try_send st channel data).2.err = ErrCode.WOULD_BLOCK →
       channel_get (coro_bus_try_send st channel data).2.bus channel = Option.some ch →
       channel_is_same b channel
         (channel_gen_get (coro_bus_try_send st channel data).2.bus channel) = false →
       coro_bus_send (fuel+1) st channel data (b :: env) =
         Option.some (-1, ({ bus := b, err := ErrCode.NO_CHANNEL } : St))) ∧
    (∀ (fuel : Nat) (st : St) (channel : Int) (b : Bus) (env : List Bus) (ch : Channel),
       (coro_bus_try_recv st channel).1 ≠ 0 →
       (coro_bus_try_recv st channel).2.2.err = ErrCode.WOULD_BLOCK →
       channel_get (coro_bus_try_recv st channel).2.2.bus channel = Option.some ch →
       channel_is_same b channel
         (channel_gen_get (coro_bus_try_recv st channel).2.2.bus channel) = false →
       coro_bus_recv (fuel+1) st channel (b :: env) =
         Option.some (-1, Option.none, ({ bus := b, err := ErrCode.NO_CHANNEL } : St))) := by
  refine ⟨?_, ?_, ?_, ?_⟩
  · intro fuel st channel data env r st2 h hr
    subst hr
    rcases coro_bus_send_result fuel st channel data env _ st2 h with ⟨h0, _⟩ | ⟨_, he⟩
    · exact absurd h0 (by decide)
    · exact he
  · intro fuel st channel env r out st2 h hr
    subst hr
    rcases coro_bus_recv_result fuel st channel env _ out st2 h with ⟨h0, _⟩ | ⟨_, he⟩
    · exact absurd h0 (by decide)
    · exact he
  · intro fuel st channel data b env ch hne hwb hg hsame
    simp only [coro_bus_send]
    rw [if_neg hne, if_neg (by rw [hwb]; decide)]
    simp only [hg]
    rw [if_neg (by rw [hsame]; decide)]
  · intro fuel st channel b env ch hne hwb hg hsame
    simp only [coro_bus_recv]
    rw [if_neg hne, if_neg (by rw [hwb]; decide)]
    simp only [hg]
    rw [if_neg (by rw [hsame]; decide)]

/-- Witness for C2: on the empty bus a blocking send returns -1 with
NO_CHANNEL, and from a full capacity-1 channel a blocking send that is
resumed over an empty bus (generation mismatch) returns -1 with
NO_CHANNEL. -/
theorem c2_blocking_scalar_error_codes_witness :
    ({ bus := { channels := [], channelGens := [] }, err := ErrCode.NO_CHANNEL } : St).err =
      ErrCode.NO_CHANNEL ∧
    coro_bus_send 1 (applyOps coro_bus_new [Op.openCh 1, Op.trySend 0 5]) 0 6
        ({ channels := [], channelGens := [] } :: []) =
      Option.some (-1, ({ bus := { channels := [], channelGens := [] },
                          err := ErrCode.NO_CHANNEL } : St)) := by
  constructor
  · exact c2_blocking_scalar_error_codes.1 1 coro_bus_new 0 5 [] (-1)
      ({ bus := { channels := [], channelGens := [] }, err := ErrCode.NO_CHANNEL } : St)
      rfl rfl
  · exact c2_blocking_scalar_error_codes.2.2.1 0
      (applyOps coro_bus_new [Op.openCh 1, Op.trySend 0 5]) 0 6
      ({ channels := [], channelGens := [] } : Bus) [] ⟨1, [], [], [5]⟩
      (by decide) rfl rfl rfl

/- ------------------------------------------------------------------ -/
/- Claim C8                                                           -/
/- ------------------------------------------------------------------ -/

theorem coro_bus_send_v_loop_result : ∀ (fuel : Nat) (st : St) (c : Int)
    (d : List Nat) (n : Nat) (env : List Bus) (r : Int) (st2 : St),
    coro_bus_send_v_loop fuel st c d n env = Option.some (r, st2) →
    st2.err = ErrCode.NONE ∨ (r = -1 ∧ st2.err = ErrCode.NO_CHANNEL)
  | 0, st, c, d, n, env, r, st2 => by
    intro h
    exact absurd h (by simp [coro_bus_send_v_loop])
  | fuel+1, st, c, d, n, env, r, st2 => by
    intro h
    simp only [coro_bus_send_v_loop] at h
    cases hg : channel_get st.bus c with
    | none =>
      simp only [hg] at h
      injection h with h2
      injection h2 with ha hb
      subst ha
      subst hb
      exact Or.inr ⟨rfl, rfl⟩
    | some ch =>
      simp only [hg] at h
      by_cases hf : (U64 + ch.sizeLimit - ch.data.length) % U64 = 0
      · rw [if_pos hf] at h
        cases env with
        | nil => exact absurd h (by simp)
        | cons b env2 =>
          dsimp only at h
          by_cases h3 : channel_is_same b c (channel_gen_get st.bus c) = true
          · rw [if_pos h3] at h
            exact coro_bus_send_v_loop_result fuel _ c d n env2 r st2 h
          · rw [if_neg h3] at h
            injection h with h4
            injection h4 with ha hb
            subst ha
            subst hb
            exact Or.inr ⟨rfl, rfl⟩
      · rw [if_neg hf] at h
        injection h with h2
        injection h2 with ha hb
        subst ha
        subst hb
        exact Or.inl rfl

theorem coro_bus_recv_v_loop_result : ∀ (fuel : Nat) (st : St) (c : Int)
    (n : Nat) (env : List Bus) (r : Int) (out : List Nat) (st2 : St),
    coro_bus_recv_v_loop fuel st c n env = Option.some (r, out, st2) →
    st2.err = ErrCode.NONE ∨ (r = -1 ∧ st2.err = ErrCode.NO_CHANNEL)
  | 0, st, c, n, env, r, out, st2 => by
    intro h
    exact absurd h (by simp [coro_bus_recv_v_loop])
  | fuel+1, st, c, n, env, r, out, st2 => by
    intro h
    simp only [coro_bus_recv_v_loop] at h
    cases hg : channel_get st.bus c with
    | none =>
      simp only [hg] at h
      injection h with h2
      injection h2 with ha hb
      subst ha
      injection hb with hc hd
      subst hc
      subst hd
      exact Or.inr ⟨rfl, rfl⟩
    | some ch =>
      simp only [hg] at h
      by_cases hf : ch.data = []
      · rw [if_pos hf] at h
        cases env with
        | nil => exact absurd h (by simp)
        | cons b env2 =>
          dsimp only at h
          by_cases h3 : channel_is_same b c (channel_gen_get st.bus c) = true
          · rw [if_pos h3] at h
            exact coro_bus_recv_v_loop_result fuel _ c n env2 r out st2 h
          · rw [if_neg h3] at h
            injection h with h4
            injection h4 with ha hb
            subst ha
            injection hb with hc hd
            subst hc
            subst hd
            exact Or.inr ⟨rfl, rfl⟩
      · rw [if_neg hf] at h
        injection h with h2
        injection h2 with ha hb
        subst ha
        injection hb with hc hd
        subst hc
        subst hd
        exact Or.inl rfl

theorem coro_bus_broadcast_result : ∀ (fuel : Nat) (st : St) (v : Nat)
    (env : List Bus) (r : Int) (st2 : St),
    coro_bus_broadcast fuel st v env = Option.some (r, st2) →
    (r = 0 ∧ st2.err = ErrCode.NONE) ∨ (r = -1 ∧ st2.err = ErrCode.NO_CHANNEL)
  | 0, st, v, env, r, st2 => by
    intro h
    exact absurd h (by simp [coro_bus_broadcast])
  | fuel+1, st, v, env, r, st2 => by
    intro h
    simp only [coro_bus_broadcast] at h
    by_cases h1 : st.bus.channels.all Option.isNone = true
    · rw [if_pos h1] at h
      injection h with h2
      injection h2 with ha hb
      subst ha
      subst hb
      exact Or.inr ⟨rfl, rfl⟩
    · rw [if_neg h1] at h
      by_cases h2 : st.bus.channels.any (fun o =>
          match o with
          | Option.none => false
          | Option.some ch => decide (ch.sizeLimit ≤ ch.data.length)) = true
      · rw [if_pos h2] at h
        cases env with
        | nil => exact absurd h (by simp)
        | cons b env2 =>
          exact coro_bus_broadcast_result fuel _ v env2 r st2 h
      · rw [if_neg h2] at h
        injection h with h3
        injection h3 with ha hb
        subst ha
        subst hb
        exact Or.inl ⟨rfl, rfl⟩

/-- C8 counterexample: channel_close never writes the last-error variable.
From the reachable state produced by opening a channel and letting a
try_recv fail (last error WOULD_BLOCK), closing the live channel takes
effect, which the claim counts as success, yet the last-error value stays
WOULD_BLOCK instead of being set to NONE; so channel_close does not write
a terminal error value. -/
theorem c8_error_propagation_counterexample :
    reachable (applyOps coro_bus_new [Op.openCh 1, Op.tryRecv 0]) ∧
    (applyOps coro_bus_new [Op.openCh 1, Op.tryRecv 0]).err = ErrCode.WOULD_BLOCK ∧
    (coro_bus_channel_close (applyOps coro_bus_new [Op.openCh 1, Op.tryRecv 0]) 0).bus.channels =
      [Option.none] ∧
    (coro_bus_channel_close (applyOps coro_bus_new [Op.openCh 1, Op.tryRecv 0]) 0).err =
      ErrCode.WOULD_BLOCK ∧
    ErrCode.WOULD_BLOCK ≠ ErrCode.NONE :=
  ⟨⟨[Op.openCh 1, Op.tryRecv 0], rfl⟩, by decide, by decide, by decide, by decide⟩

/-- C8 (corrected): every public operation except channel_close writes a
terminal last-error value before returning, NONE on the success path and
the specific failure code on failure; channel_close leaves the last-error
variable unchanged.  For each non-blocking operation the written value is
independent of the error value held before the call (stated as equality of
results from any two prior error values), bus_new and channel_open always
write NONE, the scalar and broadcast operations return 0 exactly when they
write NONE, the vector try operations return -1 whenever they write a
failure code, and every blocking operation that returns leaves NONE on
success and NO_CHANNEL on failure. -/
theorem c8_error_propagation :
    (∀ (st : St) (channel : Int), (coro_bus_channel_close st channel).err = st.err) ∧
    coro_bus_new.err = ErrCode.NONE ∧
    (∀ (b : Bus) (e e2 : ErrCode) (cap : Nat),
       coro_bus_channel_open ⟨b, e⟩ cap = coro_bus_channel_open ⟨b, e2⟩ cap ∧
       (coro_bus_channel_open ⟨b, e⟩ cap).2.err = ErrCode.NONE) ∧
    (∀ (b : Bus) (e e2 : ErrCode) (c : Int) (v : Nat),
       coro_bus_try_send ⟨b, e⟩ c v = coro_bus_try_send ⟨b, e2⟩ c v ∧
       ((coro_bus_try_send ⟨b, e⟩ c v).1 = 0 ↔
         (coro_bus_try_send ⟨b, e⟩ c v).2.err = ErrCode.NONE)) ∧
    (∀ (b : Bus) (e e2 : ErrCode) (c : Int),
       coro_bus_try_recv ⟨b, e⟩ c = coro_bus_try_recv ⟨b, e2⟩ c ∧
       ((coro_bus_try_recv ⟨b, e⟩ c).1 = 0 ↔
         (coro_bus_try_recv ⟨b, e⟩ c).2.2.err = ErrCode.NONE)) ∧
    (∀ (b : Bus) (e e2 : ErrCode) (v : Nat),
       coro_bus_try_broadcast ⟨b, e⟩ v = coro_bus_try_broadcast ⟨b, e2⟩ v ∧
       ((coro_bus_try_broadcast ⟨b, e⟩ v).1 = 0 ↔
         (coro_bus_try_broadcast ⟨b, e⟩ v).2.err = ErrCode.NONE)) ∧
    (∀ (b : Bus) (e e2 : ErrCode) (c : Int) (d : List Nat) (n : Nat),
       coro_bus_try_send_v ⟨b, e⟩ c d n = coro_bus_try_send_v ⟨b, e2⟩ c d n ∧
       ((coro_bus_try_send_v ⟨b, e⟩ c d n).2.err ≠ ErrCode.NONE →
         (coro_bus_try_send_v ⟨b, e⟩ c d n).1 = -1)) ∧
    (∀ (b : Bus) (e e2 : ErrCode) (c : Int) (n : Nat),
       coro_bus_try_recv_v ⟨b, e⟩ c n = coro_bus_try_recv_v ⟨b, e2⟩ c n ∧
       ((coro_bus_try_recv_v ⟨b, e⟩ c n).2.2.err ≠ ErrCode.NONE →
         (coro_bus_try_recv_v ⟨b, e⟩ c n).1 = -1)) ∧
    (∀ (fuel : Nat) (st : St) (c : Int) (v : Nat) (env : List Bus) (r : Int) (st2 : St),
       coro_bus_send fuel st c v env = Option.some (r, st2) →
       (r = 0 ∧ st2.err = ErrCode.NONE) ∨ (r = -1 ∧ st2.err = ErrCode.NO_CHANNEL)) ∧
    (∀ (fuel : Nat) (st : St) (c : Int) (env : List Bus) (r : Int)
       (out : Option Nat) (st2 : St),
       coro_bus_recv fuel st c env = Option.some (r, out, st2) →
       (r = 0 ∧ st2.err = ErrCode.NONE) ∨ (r = -1 ∧ st2.err = ErrCode.NO_CHANNEL)) ∧
    (∀ (fuel : Nat) (st : St) (c : Int) (d : List Nat) (n : Nat) (env : List Bus)
       (r : Int) (st2 : St),
       coro_bus_send_v fuel st c d n env = Option.some (r, st2) →
       st2.err = ErrCode.NONE ∨ (r = -1 ∧ st2.err = ErrCode.NO_CHANNEL)) ∧
    (∀ (fuel : Nat) (st : St) (c : Int) (n : Nat) (env : List Bus)
       (r : Int) (out : List Nat) (st2 : St),
       coro_bus_recv_v fuel st c n env = Option.some (r, out, st2) →
       st2.err = ErrCode.NONE ∨ (r = -1 ∧ st2.err = ErrCode.NO_CHANNEL)) ∧
    (∀ (fuel : Nat) (st : St) (v : Nat) (env : List Bus) (r : Int) (st2 : St),
       coro_bus_broadcast fuel st v env = Option.some (r, st2) →
       (r = 0 ∧ st2.err = ErrCode.NONE) ∨ (r = -1 ∧ st2.err = ErrCode.NO_CHANNEL)) := by
  refine ⟨?_, rfl, ?_, ?_, ?_, ?_, ?_, ?_, ?_, ?_, ?_, ?_, ?_⟩
  · intro st channel
    unfold coro_bus_channel_close
    cases channel_get st.bus channel with
    | none => rfl
    | some ch => rfl
  · intro b e e2 cap
    constructor
    · unfold coro_bus_channel_open
      cases b.channels.findIdx? Option.isNone with
      | none => rfl
      | some j => rfl
    · unfold coro_bus_channel_open
      cases b.channels.findIdx? Option.isNone with
      | none => rfl
      | some j => rfl
  · intro b e e2 c v
    constructor
    · unfold coro_bus_try_send
      cases channel_get b c with
      | none => rfl
      | some ch => dsimp only
    · unfold coro_bus_try_send
      cases channel_get b c with
      | none => simp
      | some ch =>
        dsimp only
        split
        · simp
        · simp
  · intro b e e2 c
    constructor
    · unfold coro_bus_try_recv
      cases channel_get b c with
      | none => rfl
      | some ch => dsimp only
    · unfold coro_bus_try_recv
      cases channel_get b c with
      | none => simp
      | some ch =>
        dsimp only
        cases ch.data with
        | nil => simp
        | cons v rest => simp
  · intro b e e2 v
    constructor
    · unfold coro_bus_try_broadcast
      split
      · rfl
      · split <;> rfl
    · unfold coro_bus_try_broadcast
      split
      · simp
      · split <;> simp
  · intro b e e2 c d n
    constructor
    · unfold coro_bus_try_send_v
      split
      · rfl
      · cases channel_get b c with
        | none => rfl
        | some ch => dsimp only
    · unfold coro_bus_try_send_v
      split
      · intro he
        exact absurd rfl he
      · cases channel_get b c with
        | none => intro _; rfl
        | some ch =>
          dsimp only
          split
          · intro _; rfl
          · intro he
            exact absurd rfl he
  · intro b e e2 c n
    constructor
    · unfold coro_bus_try_recv_v
      split
      · rfl
      · cases channel_get b c with
        | none => rfl
        | some ch => dsimp only
    · unfold coro_bus_try_recv_v
      split
      · intro he
        exact absurd rfl he
      · cases channel_get b c with
        | none => intro _; rfl
        | some ch =>
          dsimp only
          split
          · intro _; rfl
          · intro he
            exact absurd rfl he
  · exact fun fuel st c v env r st2 h => coro_bus_send_result fuel st c v env r st2 h
  · exact fun fuel st c env r out st2 h => coro_bus_recv_result fuel st c env r out st2 h
  · intro fuel st c d n env r st2 h
    unfold coro_bus_send_v at h
    by_cases hn : n = 0
    · rw [if_pos hn] at h
      injection h with h2
      injection h2 with ha hb
      subst ha
      subst hb
      exact Or.inl rfl
    · rw [if_neg hn] at h
      exact coro_bus_send_v_loop_result fuel st c d n env r st2 h
  · intro fuel st c n env r out st2 h
    unfold coro_bus_recv_v at h
    by_cases hn : n = 0
    · rw [if_pos hn] at h
      injection h with h2
      injection h2 with ha hb
      subst ha
      injection hb with hc hd
      subst hc
      subst hd
      exact Or.inl rfl
    · rw [if_neg hn] at h
      exact coro_bus_recv_v_loop_result fuel st c n env r out st2 h
  · exact fun fuel st v env r st2 h => coro_bus_broadcast_result fuel st v env r st2 h

/-- Witness for C8: channel_close keeps the WOULD_BLOCK error on a
concrete reachable state, and a concrete blocking send that returns -1 has
written NO_CHANNEL. -/
theorem c8_error_propagation_witness :
    (coro_bus_channel_close (applyOps coro_bus_new [Op.openCh 1, Op.tryRecv 0]) 0).err =
      (applyOps coro_bus_new [Op.openCh 1, Op.tryRecv 0]).err ∧
    (((-1 : Int) = 0 ∧
        ({ bus := { channels := [], channelGens := [] }, err := ErrCode.NO_CHANNEL } : St).err =
          ErrCode.NONE) ∨
     ((-1 : Int) = -1 ∧
        ({ bus := { channels := [], channelGens := [] }, err := ErrCode.NO_CHANNEL } : St).err =
          ErrCode.NO_CHANNEL)) :=
  ⟨c8_error_propagation.1 (applyOps coro_bus_new [Op.openCh 1, Op.tryRecv 0]) 0,
   c8_error_propagation.2.2.2.2.2.2.2.2.1 1 coro_bus_new 0 5 [] (-1)
     ({ bus := { channels := [], channelGens := [] }, err := ErrCode.NO_CHANNEL } : St) rfl⟩

end Corobus
